import Mathlib

/-!
# Verification of the attention-api friend/alert core (`src/v2/views.py`)

Shallow embedding of the relationship, alert-dispatch and read-receipt
handlers of `src/v2/views.py`, together with the `Friend`/`FCMTokens` data
model they operate on, and proofs of the specification claims about them.

The persistent store (Django ORM over SQLite) is embedded as explicit state:
a list of users, a list of directed friend edges keyed by
`(owner username, friend username)` (unique per ordered pair), and a list of
`(username, fcm_token)` device-token rows.  The external Firebase messenger
is an opaque parameter `deliver : String → Bool` deciding, per device token,
whether `messaging.send` succeeds or raises `InvalidArgumentError`
(spec: `InvalidToken`); every message handed to `messaging.send` is collected
so that fan-out behaviour can be stated.
-/

namespace AttentionApi

/-- A user row, as far as the handlers read it (`username`, `first_name`,
`last_name`; auth fields are outside the modelled core). -/
structure User where
  username : String
  first_name : String
  last_name : String
  deriving Repr, DecidableEq

/-- Modelled from the spec: the `Friend` row of `v2/models.py` is not under
`src/` (only `views.py` imports it), so its columns are taken from the spec's
persisted edge record layout: `owner_id, friend_id, name NULLABLE,
deleted BOOLEAN, sent INTEGER, received INTEGER, last_sent_alert_id NULLABLE,
last_sent_message_read BOOLEAN`, unique on `(owner_id, friend_id)`.
The `(owner, friend)` key is kept outside this structure, in the store. -/
structure Edge where
  name : Option String
  deleted : Bool
  sent : Nat
  received : Nat
  last_sent_alert_id : Option String
  last_sent_message_read : Bool
  deriving Repr, DecidableEq

/-- Modelled from the spec: field defaults used when a `Friend` row is created
with only some fields given (`sent`/`received` are counters starting at 0,
`name` and `last_sent_alert_id` are NULLABLE, flags default false). -/
def Edge.default : Edge :=
  { name := none, deleted := false, sent := 0, received := 0
    last_sent_alert_id := none, last_sent_message_read := false }

/-- The database state the v2 handlers read and write: `auth_user` rows,
`Friend` rows keyed by `(owner username, friend username)` (at most one row
per ordered pair), and `FCMTokens` rows `(username, fcm_token)`. -/
structure State where
  users : List User
  edges : List ((String × String) × Edge)
  tokens : List (String × String)
  deriving Repr, DecidableEq

/-- `get_user_model().objects.get(username=u)`: first user row with the given
username (usernames are unique). -/
def findUser (st : State) (u : String) : Option User :=
  st.users.find? (fun x => x.username == u)

/-- `Friend.objects.get(owner=..., friend=...)` (no `deleted` filter): the row
for the ordered pair, if present. -/
def edgeLookup : List ((String × String) × Edge) → String → String → Option Edge
  | [], _, _ => none
  | (k, e) :: rest, o, f => if k = (o, f) then some e else edgeLookup rest o f

/-- Row update for one `(owner, friend)` key: read-modify-write of the unique
matching row. -/
def updateEdge (es : List ((String × String) × Edge)) (o f : String)
    (g : Edge → Edge) : List ((String × String) × Edge) :=
  es.map (fun p => if p.1 = (o, f) then (p.1, g p.2) else p)

/-- `Friend.objects.get(owner__username=to, friend__username=sender,
deleted=False)`: the row for the ordered pair provided it is live. -/
def liveEdge (st : State) (o f : String) : Option Edge :=
  (edgeLookup st.edges o f).bind (fun e => if e.deleted then none else some e)

/-- `FCMTokens.objects.filter(user__username=u)`, projected to the token
strings in row order. -/
def tokensOf (st : State) (u : String) : List String :=
  (st.tokens.filter (fun p => p.1 == u)).map (·.2)

@[simp] theorem edgeLookup_nil (o f : String) : edgeLookup [] o f = none := rfl

theorem edgeLookup_cons (k : String × String) (e : Edge)
    (rest : List ((String × String) × Edge)) (o f : String) :
    edgeLookup ((k, e) :: rest) o f =
      if k = (o, f) then some e else edgeLookup rest o f := rfl

theorem updateEdge_nil (o f : String) (g : Edge → Edge) :
    updateEdge [] o f g = [] := rfl

theorem updateEdge_cons_pos (k : String × String) (e : Edge)
    (rest : List ((String × String) × Edge)) (o f : String) (g : Edge → Edge)
    (hk : k = (o, f)) :
    updateEdge ((k, e) :: rest) o f g = (k, g e) :: updateEdge rest o f g := by
  simp [updateEdge, hk]

theorem updateEdge_cons_neg (k : String × String) (e : Edge)
    (rest : List ((String × String) × Edge)) (o f : String) (g : Edge → Edge)
    (hk : ¬ k = (o, f)) :
    updateEdge ((k, e) :: rest) o f g = (k, e) :: updateEdge rest o f g := by
  simp [updateEdge, hk]

theorem edgeLookup_updateEdge (es : List ((String × String) × Edge))
    (o f o' f' : String) (g : Edge → Edge) :
    edgeLookup (updateEdge es o f g) o' f' =
      if (o, f) = (o', f') then (edgeLookup es o' f').map g
      else edgeLookup es o' f' := by
  induction es with
  | nil => by_cases h : (o, f) = (o', f') <;> simp [updateEdge, h]
  | cons p rest ih =>
    obtain ⟨k, e⟩ := p
    by_cases hk : k = (o, f)
    · rw [updateEdge_cons_pos k e rest o f g hk, edgeLookup_cons,
        edgeLookup_cons]
      by_cases hk' : k = (o', f')
      · have h : (o, f) = (o', f') := hk ▸ hk'
        rw [if_pos hk', if_pos hk', if_pos h]
        rfl
      · have h : ¬ (o, f) = (o', f') := fun h => hk' (hk.trans h)
        rw [if_neg hk', if_neg hk', if_neg h, ih, if_neg h]
    · rw [updateEdge_cons_neg k e rest o f g hk, edgeLookup_cons,
        edgeLookup_cons]
      by_cases hk' : k = (o', f')
      · have h : ¬ (o, f) = (o', f') := fun h => hk (hk'.trans h.symm)
        rw [if_pos hk', if_pos hk', if_neg h]
      · rw [if_neg hk', if_neg hk', ih]

theorem edgeLookup_updateEdge_same (es : List ((String × String) × Edge))
    (o f : String) (g : Edge → Edge) :
    edgeLookup (updateEdge es o f g) o f = (edgeLookup es o f).map g := by
  simp [edgeLookup_updateEdge]

/-! ## Field projections of the edge store -/

/-- `received` counter of the `(o, f)` row, when the row exists. -/
def received? (st : State) (o f : String) : Option Nat :=
  (edgeLookup st.edges o f).map (·.received)

/-- `sent` counter of the `(o, f)` row, when the row exists. -/
def sent? (st : State) (o f : String) : Option Nat :=
  (edgeLookup st.edges o f).map (·.sent)

/-- `last_sent_alert_id` of the `(o, f)` row, when the row exists. -/
def lastAlertId? (st : State) (o f : String) : Option (Option String) :=
  (edgeLookup st.edges o f).map (·.last_sent_alert_id)

/-- `last_sent_message_read` of the `(o, f)` row, when the row exists. -/
def lastRead? (st : State) (o f : String) : Option Bool :=
  (edgeLookup st.edges o f).map (·.last_sent_message_read)

/-! ## Relationship handlers (`add_friend`, `edit_friend_name`,
`get_friend_name`, `delete_friend`) -/

inductive AddOutcome where
  | ok             -- 200 "Successfully added/restored friend"
  | userNotFound   -- 400 "User does not exist"
  deriving Repr, DecidableEq

/-- `add_friend` (views.py 91-114): resolve the friend by username, then
`Friend.objects.update_or_create(owner=request.user, friend=friend,
defaults={'deleted': False})` — an existing row only has `deleted` cleared
(all other fields untouched); an absent row is created with the model's
defaults plus `deleted=False`.  The created row's key is the resolved
friend's username, i.e. exactly the requested username. -/
def add_friend (st : State) (owner friendU : String) : State × AddOutcome :=
  match findUser st friendU with
  | none => (st, .userNotFound)
  | some _ =>
    match edgeLookup st.edges owner friendU with
    | some _ =>
      ({ st with edges :=
          updateEdge st.edges owner friendU (fun e => { e with deleted := false }) },
        .ok)
    | none =>
      ({ st with edges :=
          ((owner, friendU), { Edge.default with deleted := false }) :: st.edges },
        .ok)

inductive RenameOutcome where
  | ok             -- 200 "Successfully updated friend name"
  | userNotFound   -- 400 (DoesNotExist branch)
  deriving Repr, DecidableEq

/-- `edit_friend_name` (views.py 118-156): resolve the friend, then
`update_or_create(owner=..., friend=..., defaults={'name': new_name})`.
An existing row only has `name` overwritten; when the row was created the
view additionally sets `deleted = True` on it and saves. -/
def edit_friend_name (st : State) (owner friendU newName : String) :
    State × RenameOutcome :=
  match findUser st friendU with
  | none => (st, .userNotFound)
  | some _ =>
    match edgeLookup st.edges owner friendU with
    | some _ =>
      ({ st with edges :=
          updateEdge st.edges owner friendU (fun e => { e with name := some newName }) },
        .ok)
    | none =>
      ({ st with edges :=
          ((owner, friendU),
            { Edge.default with name := some newName, deleted := true }) ::
            st.edges }, .ok)

inductive GetNameResult where
  | ok (name : Option String)   -- 200, data {'name': ...}
  | userNotFound                -- 400 "Couldn't find user"
  deriving Repr, DecidableEq

/-- `get_friend_name` (views.py 160-186): resolve the friend; if the
`Friend` row `(owner, friend)` exists the response carries `rel.name`
as stored (possibly null); only when the row does not exist does it fall
back to `f'{friend.first_name} {friend.last_name}'`. -/
def get_friend_name (st : State) (owner friendU : String) : GetNameResult :=
  match findUser st friendU with
  | none => .userNotFound
  | some friend =>
    match edgeLookup st.edges owner friendU with
    | some rel => .ok rel.name
    | none => .ok (some (friend.first_name ++ " " ++ friend.last_name))

inductive DeleteOutcome where
  | ok          -- 200 "Successfully deleted friend"
  | notFriends  -- 400 "Could not delete friend as you were not friends"
  deriving Repr, DecidableEq

/-- `delete_friend` (views.py 190-211):
`Friend.objects.select_for_update().get(owner=request.user,
friend__username=...)` — note: no `deleted=False` filter, so the row is
matched whether or not it is already soft-deleted — then `deleted = True`
is stored.  `DoesNotExist` (no row at all) yields the 400 error. -/
def delete_friend (st : State) (owner friendU : String) : State × DeleteOutcome :=
  match edgeLookup st.edges owner friendU with
  | none => (st, .notFriends)
  | some _ =>
    ({ st with edges :=
        updateEdge st.edges owner friendU (fun e => { e with deleted := true }) },
      .ok)

/-! ## Alert dispatch and read receipts (`send_alert`, `alert_read`)

A message handed to `messaging.send` is recorded as an `FcmMessage`; the
opaque messenger `deliver : String → Bool` says, per token, whether the send
succeeds (`true`) or raises the tolerated `InvalidArgumentError` (`false`).
The fan-out loop submits one message per token row and ORs the outcomes, so
the submitted messages are the map over all tokens and the overall success
flag is `List.any deliver`. -/

/-- One `messaging.Message` as built by the handlers: device token, Android
priority, and the `data` payload fields that are ever set. -/
structure FcmMessage where
  token : String
  priority : String
  action : String
  alert_id : String
  alert_to : Option String := none
  alert_from : Option String := none
  alert_message : Option String := none
  username_to : Option String := none
  deriving Repr, DecidableEq

/-- The high-priority alert payload of `send_alert` (views.py 374-386). -/
def mkAlertMessage (alertId toU sender msg token : String) : FcmMessage :=
  { token := token, priority := "high", action := "alert", alert_id := alertId,
    alert_to := some toU, alert_from := some sender, alert_message := some msg }

inductive SendOutcome where
  /-- 403 "Could not send message as ... does not have you as a friend". -/
  | permissionDenied
  /-- Uncaught `IntegrityError` escaping the view (HTTP 500): see
  `send_alert` below. -/
  | integrityError
  /-- 400 "Could not find user ..." — empty token set. -/
  | noDevices
  /-- 400 "Unable to send message" — every token send failed. -/
  | deliveryFailed
  /-- 200 with data `{'id': alert_id}`. -/
  | ok (alertId : String)
  deriving Repr, DecidableEq

/-- `send_alert` (views.py 326-396).  `alertId` stands for the fresh
`str(time.time())` generated at entry; `deliver` is the opaque messenger.

Control flow of the source, in order, with no enclosing transaction:
1. `Friend.objects.get(owner__username=to, friend__username=sender,
   deleted=False)` — `DoesNotExist` is caught and returned as the 403.
2. `friend.received += 1; friend.save()` — this write is committed
   immediately and is never rolled back by the later failure returns.
3. `Friend.objects.get_or_create(owner__username=sender,
   friend__username=to, defaults={'deleted': True})`.  When the row exists
   the following `sent += 1`, `last_sent_alert_id = alert_id`,
   `last_sent_message_read = False`, `save()` update it.  When the row does
   NOT exist, Django's `get_or_create` strips every keyword containing
   `__` from the create parameters (`_extract_model_params` keeps only
   `LOOKUP_SEP`-free keywords plus the defaults), so it attempts
   `Friend(deleted=True).save()` with no owner/friend; the NOT NULL
   columns make this raise `IntegrityError`, which the view's
   `except Friend.DoesNotExist` does not catch — the request dies with a
   500 and no row is created, while step 2's increment survives.
4. Token resolution, empty check, fan-out, and the
   at-least-one-success rule. -/
def send_alert (st : State) (sender toU msg alertId : String)
    (deliver : String → Bool) : State × SendOutcome × List FcmMessage :=
  match liveEdge st toU sender with
  | none => (st, .permissionDenied, [])
  | some _ =>
    let st1 : State :=
      { st with edges :=
          updateEdge st.edges toU sender (fun e => { e with received := e.received + 1 }) }
    match edgeLookup st1.edges sender toU with
    | none => (st1, .integrityError, [])
    | some _ =>
      let st2 : State :=
        { st1 with edges :=
            updateEdge st1.edges sender toU (fun e => { e with sent := e.sent + 1, last_sent_alert_id := some alertId, last_sent_message_read := false }) }
      let toks := tokensOf st2 toU
      if toks.isEmpty then
        (st2, .noDevices, [])
      else
        let msgs := toks.map (mkAlertMessage alertId toU sender msg)
        if toks.any deliver then (st2, .ok alertId, msgs)
        else (st2, .deliveryFailed, msgs)

/-- The low-priority read-receipt payload of `alert_read` (views.py
433-444).  Its `alert_id` datum is the `alert_id` local assigned at
views.py 432 — a fresh `time.time()` — not the `alert_id` request
parameter. -/
def mkReadMessage (now acker token : String) : FcmMessage :=
  { token := token, priority := "low", action := "read", alert_id := now,
    username_to := some acker }

/-- `Friend.objects.filter(owner__username=fromU,
last_sent_alert_id=alertId)` followed by setting
`last_sent_message_read = True` on each matched row and saving
(views.py 414-418). -/
def markRead (es : List ((String × String) × Edge)) (fromU alertId : String) :
    List ((String × String) × Edge) :=
  es.map (fun p =>
    if p.1.1 = fromU ∧ p.2.last_sent_alert_id = some alertId
    then (p.1, { p.2 with last_sent_message_read := true }) else p)

inductive ReadOutcome where
  /-- 500 "An error occurred" — empty notify-set. -/
  | noRecipientDevices
  /-- 400 "Unable to send read status" — every send failed. -/
  | deliveryFailed
  /-- 200 "Successfully sent read status". -/
  | ok
  deriving Repr, DecidableEq

/-- `alert_read` (views.py 400-454).  `acker` is `request.user.username`,
`fromU` is `request.data['from']`, `alertId` is `request.data['alert_id']`,
`ackToken` is `request.data['fcm_token']`, and `now` stands for the fresh
`time.time()` assigned at views.py 432 and placed in every payload.

The notify-set is
`FCMTokens.filter(user__username=fromU).exclude(fcm_token=ackToken)
.union(FCMTokens.filter(user__username=acker))` — SQL `UNION`, i.e. the
distinct `(user, fcm_token)` rows; the exclusion of `ackToken` applies only
to `fromU`'s rows, not to `acker`'s. -/
def alert_read (st : State) (acker fromU alertId ackToken now : String)
    (deliver : String → Bool) : State × ReadOutcome × List FcmMessage :=
  let st1 : State := { st with edges := markRead st.edges fromU alertId }
  let rows := ((st1.tokens.filter (fun p => p.1 == fromU && p.2 != ackToken))
      ++ (st1.tokens.filter (fun p => p.1 == acker))).dedup
  if rows.isEmpty then
    (st1, .noRecipientDevices, [])
  else
    let msgs := rows.map (fun p => mkReadMessage now acker p.2)
    if rows.any (fun p => deliver p.2) then (st1, .ok, msgs)
    else (st1, .deliveryFailed, msgs)

theorem edgeLookup_markRead (es : List ((String × String) × Edge))
    (fromU alertId o f : String) :
    edgeLookup (markRead es fromU alertId) o f =
      (edgeLookup es o f).map (fun e =>
        if o = fromU ∧ e.last_sent_alert_id = some alertId
        then { e with last_sent_message_read := true } else e) := by
  induction es with
  | nil => simp [markRead]
  | cons p rest ih =>
    obtain ⟨k, e⟩ := p
    by_cases hc : k.1 = fromU ∧ e.last_sent_alert_id = some alertId
    · have h1 : markRead ((k, e) :: rest) fromU alertId =
          (k, { e with last_sent_message_read := true }) :: markRead rest fromU alertId := by
        simp [markRead, hc]
      rw [h1, edgeLookup_cons, edgeLookup_cons]
      by_cases hk : k = (o, f)
      · have ho : o = fromU := by rw [hk] at hc; exact hc.1
        rw [if_pos hk, if_pos hk]
        simp [ho, hc.2]
      · rw [if_neg hk, if_neg hk, ih]
    · have h1 : markRead ((k, e) :: rest) fromU alertId =
          (k, e) :: markRead rest fromU alertId := by
        simp [markRead, hc]
      rw [h1, edgeLookup_cons, edgeLookup_cons]
      by_cases hk : k = (o, f)
      · have hc' : ¬ (o = fromU ∧ e.last_sent_alert_id = some alertId) := by
          rw [hk] at hc; exact hc
        rw [if_pos hk, if_pos hk]
        simp [hc']
      · rw [if_neg hk, if_neg hk, ih]

/-! ## Claim C1 -/

/-- C1: `sendAlert(S,R,msg)` fails with `PermissionDenied` when there is no
live (non-deleted) edge `(R,S)`; when it succeeds, `received` on edge
`(R,S)` is exactly one greater than before, `sent` on edge `(S,R)` is
exactly one greater than before, `last_sent_alert_id` on `(S,R)` equals the
returned alert id, and `last_sent_message_read` on `(S,R)` is false. -/
theorem send_alert_permission_and_counters (st : State)
    (S R msg aid : String) (deliver : String → Bool) :
    (liveEdge st R S = none →
      (send_alert st S R msg aid deliver).2.1 = SendOutcome.permissionDenied) ∧
    (∀ st' aid' msgs,
      send_alert st S R msg aid deliver = (st', SendOutcome.ok aid', msgs) →
      received? st' R S = (received? st R S).map (· + 1) ∧
      sent? st' S R = (sent? st S R).map (· + 1) ∧
      lastAlertId? st' S R = some (some aid') ∧
      lastRead? st' S R = some false) := by
  constructor
  · intro h
    simp [send_alert, h]
  · intro st' aid' msgs hrun
    simp only [send_alert] at hrun
    split at hrun
    · simp at hrun
    · split at hrun
      · simp at hrun
      · split at hrun
        · simp at hrun
        · split at hrun
          · rename_i x1 e1 hliv x2 e2 hrev hne hany
            simp only [Prod.mk.injEq] at hrun
            obtain ⟨hst, hout, hmsgs⟩ := hrun
            injection hout with haid
            subst hst haid
            refine ⟨?_, ?_, ?_, ?_⟩
            · simp only [received?, edgeLookup_updateEdge,
                edgeLookup_updateEdge_same]
              by_cases h : (S, R) = (R, S) <;>
                cases hx : edgeLookup st.edges R S <;> simp [h, hx]
            · simp only [sent?, edgeLookup_updateEdge,
                edgeLookup_updateEdge_same]
              by_cases h : (R, S) = (S, R) <;>
                cases hx : edgeLookup st.edges S R <;> simp [h, hx]
            · simp [lastAlertId?, edgeLookup_updateEdge_same, hrev]
            · simp [lastRead?, edgeLookup_updateEdge_same, hrev]
          · simp at hrun

/-- Concrete database for exercising C1: `bob` has `alice` as a live friend
(edge `("bob","alice")`, `received = 4`), the reverse edge
`("alice","bob")` exists soft-deleted with `sent = 7`, and `bob` has one
registered device token. -/
def stC1 : State :=
  { users := [⟨"alice", "Alice", "Ada"⟩, ⟨"bob", "Bob", "Byte"⟩],
    edges := [(("bob", "alice"), { Edge.default with received := 4 }),
              (("alice", "bob"), { Edge.default with deleted := true, sent := 7 })],
    tokens := [("bob", "tokB1")] }

/-- Witness for C1: on `stC1`, a send from `bob` to `carol` (no edge
`("carol","bob")`) is refused with `PermissionDenied`, and a successful
send from `alice` to `bob` bumps `received` on `("bob","alice")` and
`sent` on `("alice","bob")` by one and stamps the alert id unread. -/
theorem send_alert_permission_and_counters_witness :
    (send_alert stC1 "bob" "carol" "hi" "A0" (fun _ => true)).2.1 =
        SendOutcome.permissionDenied ∧
    (received? (send_alert stC1 "alice" "bob" "hi" "A1" (fun _ => true)).1
        "bob" "alice" = (received? stC1 "bob" "alice").map (· + 1) ∧
      sent? (send_alert stC1 "alice" "bob" "hi" "A1" (fun _ => true)).1
        "alice" "bob" = (sent? stC1 "alice" "bob").map (· + 1) ∧
      lastAlertId? (send_alert stC1 "alice" "bob" "hi" "A1" (fun _ => true)).1
        "alice" "bob" = some (some "A1") ∧
      lastRead? (send_alert stC1 "alice" "bob" "hi" "A1" (fun _ => true)).1
        "alice" "bob" = some false) :=
  ⟨(send_alert_permission_and_counters stC1 "bob" "carol" "hi" "A0"
      (fun _ => true)).1 (by decide),
   (send_alert_permission_and_counters stC1 "alice" "bob" "hi" "A1"
      (fun _ => true)).2
    (send_alert stC1 "alice" "bob" "hi" "A1" (fun _ => true)).1 "A1"
    (send_alert stC1 "alice" "bob" "hi" "A1" (fun _ => true)).2.2 (by decide)⟩

/-! ## Claim C2 -/

/-- Concrete database for C2: `bob` has `alice` as a live friend and the
reverse edge exists, but `bob` has no registered device tokens, so a send
from `alice` fails with `NoDevices` after the counters were written. -/
def stC2 : State :=
  { users := [⟨"alice", "Alice", "Ada"⟩, ⟨"bob", "Bob", "Byte"⟩],
    edges := [(("bob", "alice"), Edge.default),
              (("alice", "bob"), Edge.default)],
    tokens := [] }

/-- C2 fails on the code: `send_alert` runs with no enclosing transaction,
so a `NoDevices` failure leaves the `received` counter of `("bob","alice")`
already incremented — the counters are NOT unchanged. -/
theorem send_alert_no_rollback_counterexample :
    (send_alert stC2 "alice" "bob" "hi" "A1" (fun _ => false)).2.1 =
        SendOutcome.noDevices ∧
    received? (send_alert stC2 "alice" "bob" "hi" "A1" (fun _ => false)).1
        "bob" "alice" ≠ received? stC2 "bob" "alice" := by
  decide

/-- C2 (amended): when `sendAlert(S,R,msg)` fails with `NoDevices` or
`DeliveryFailed`, the counter updates of steps 3-4 persist in full —
`received` on `(R,S)` and `sent`/`last_sent_alert_id`/
`last_sent_message_read` on `(S,R)` hold exactly the values a successful
send would have written; nothing is rolled back. -/
theorem send_alert_failure_keeps_counters (st : State) (S R msg aid : String)
    (deliver : String → Bool) (st' : State) (out : SendOutcome)
    (msgs : List FcmMessage)
    (hrun : send_alert st S R msg aid deliver = (st', out, msgs))
    (hfail : out = SendOutcome.noDevices ∨ out = SendOutcome.deliveryFailed) :
    received? st' R S = (received? st R S).map (· + 1) ∧
    sent? st' S R = (sent? st S R).map (· + 1) ∧
    lastAlertId? st' S R = some (some aid) ∧
    lastRead? st' S R = some false := by
  simp only [send_alert] at hrun
  split at hrun
  · simp only [Prod.mk.injEq] at hrun
    obtain ⟨-, h2, -⟩ := hrun
    subst h2
    rcases hfail with h | h <;> cases h
  · split at hrun
    · simp only [Prod.mk.injEq] at hrun
      obtain ⟨-, h2, -⟩ := hrun
      subst h2
      rcases hfail with h | h <;> cases h
    · rename_i x1 e1 hliv x2 e2 hrev
      have main : st'.edges =
          updateEdge
            (updateEdge st.edges R S (fun e => { e with received := e.received + 1 }))
            S R (fun e =>
              { e with sent := e.sent + 1, last_sent_alert_id := some aid,
                       last_sent_message_read := false }) := by
        split at hrun
        · simp only [Prod.mk.injEq] at hrun
          obtain ⟨h1, -, -⟩ := hrun
          rw [← h1]
        · split at hrun
          · simp only [Prod.mk.injEq] at hrun
            obtain ⟨-, h2, -⟩ := hrun
            subst h2
            rcases hfail with h | h <;> cases h
          · simp only [Prod.mk.injEq] at hrun
            obtain ⟨h1, -, -⟩ := hrun
            rw [← h1]
      refine ⟨?_, ?_, ?_, ?_⟩
      · simp only [received?, main, edgeLookup_updateEdge,
          edgeLookup_updateEdge_same]
        by_cases h : (S, R) = (R, S) <;>
          cases hx : edgeLookup st.edges R S <;> simp [h, hx]
      · simp only [sent?, main, edgeLookup_updateEdge,
          edgeLookup_updateEdge_same]
        by_cases h : (R, S) = (S, R) <;>
          cases hx : edgeLookup st.edges S R <;> simp [h, hx]
      · simp [lastAlertId?, main, edgeLookup_updateEdge_same, hrev]
      · simp [lastRead?, main, edgeLookup_updateEdge_same, hrev]

/-- Witness for the amended C2 at `stC2`: the failed (`NoDevices`) send
from `alice` to `bob` leaves both edges fully updated. -/
theorem send_alert_failure_keeps_counters_witness :
    received? (send_alert stC2 "alice" "bob" "hi" "A1" (fun _ => false)).1
        "bob" "alice" = (received? stC2 "bob" "alice").map (· + 1) ∧
    sent? (send_alert stC2 "alice" "bob" "hi" "A1" (fun _ => false)).1
        "alice" "bob" = (sent? stC2 "alice" "bob").map (· + 1) ∧
    lastAlertId? (send_alert stC2 "alice" "bob" "hi" "A1" (fun _ => false)).1
        "alice" "bob" = some (some "A1") ∧
    lastRead? (send_alert stC2 "alice" "bob" "hi" "A1" (fun _ => false)).1
        "alice" "bob" = some false :=
  send_alert_failure_keeps_counters stC2 "alice" "bob" "hi" "A1"
    (fun _ => false)
    (send_alert stC2 "alice" "bob" "hi" "A1" (fun _ => false)).1
    SendOutcome.noDevices
    (send_alert stC2 "alice" "bob" "hi" "A1" (fun _ => false)).2.2
    (by decide) (Or.inl rfl)

/-! ## Claims C3 and C6 -/

/-- Concrete database for the read-receipt claims: `alice` (the original
sender) has one device `a1`; `bob` (the acker) has devices `t1` and `t2`
and acknowledges from `t1`; the edge `("alice","bob")` carries the alert
`A1` being acknowledged. -/
def stRead : State :=
  { users := [⟨"alice", "Alice", "Ada"⟩, ⟨"bob", "Bob", "Byte"⟩],
    edges := [(("alice", "bob"),
      { Edge.default with sent := 1, last_sent_alert_id := some "A1" })],
    tokens := [("alice", "a1"), ("bob", "t1"), ("bob", "t2")] }

/-- C3 fails on the code: the `.exclude(fcm_token=...)` applies only to the
original sender's tokens, and the union then adds ALL of the acker's
tokens, so the acking device's own token `t1` is in the notify-set and a
read-receipt message is submitted to it. -/
theorem alert_read_notifies_acking_token :
    ("bob", "t1") ∈ stRead.tokens ∧
    ((alert_read stRead "bob" "alice" "A1" "t1" "99.9" (fun _ => true)).2.2).any
        (fun m => m.token == "t1") = true := by
  decide

/-- C6 fails on the code: every message of the read fan-out is indeed
low-priority with `action = read` and `username_to = acker`, but its
`alert_id` datum is the fresh `time.time()` taken at views.py 432
(modelled `"99.9"`), not the `alert_id` request parameter `"A1"` being
acknowledged. -/
theorem alert_read_payload_carries_fresh_id :
    (alert_read stRead "bob" "alice" "A1" "t1" "99.9" (fun _ => true)).2.2 ≠
        [] ∧
    ((alert_read stRead "bob" "alice" "A1" "t1" "99.9" (fun _ => true)).2.2).all
        (fun m => m.priority == "low" && m.action == "read" &&
          m.username_to == some "bob" && m.alert_id == "99.9" &&
          !(m.alert_id == "A1")) = true := by
  decide

/-! ## Claim C4 -/

/-- Concrete database for C4: the edge `("alice","bob")` exists but is
already soft-deleted, so no live edge exists for the pair. -/
def stC4 : State :=
  { users := [⟨"alice", "Alice", "Ada"⟩, ⟨"bob", "Bob", "Byte"⟩],
    edges := [(("alice", "bob"), { Edge.default with deleted := true })],
    tokens := [] }

/-- C4 fails on the code: `delete_friend` looks the row up WITHOUT a
`deleted=False` filter, so with the edge already soft-deleted (no live
edge) it still succeeds instead of failing with `NotFriends`. -/
theorem delete_friend_soft_deleted_counterexample :
    (edgeLookup stC4.edges "alice" "bob").map (·.deleted) = some true ∧
    (delete_friend stC4 "alice" "bob").2 = DeleteOutcome.ok := by
  decide

/-- C4 (amended): `removeFriend(O,F)` fails with `NotFriends` exactly when
no edge row `(O,F)` exists at all; whenever the row exists — live or
already soft-deleted — it succeeds and stores `deleted=true`. -/
theorem delete_friend_requires_row (st : State) (O F : String) :
    (edgeLookup st.edges O F = none →
      delete_friend st O F = (st, DeleteOutcome.notFriends)) ∧
    (∀ e, edgeLookup st.edges O F = some e →
      (delete_friend st O F).2 = DeleteOutcome.ok ∧
      (edgeLookup (delete_friend st O F).1.edges O F).map (·.deleted) =
        some true) := by
  constructor
  · intro h
    simp [delete_friend, h]
  · intro e he
    simp [delete_friend, he, edgeLookup_updateEdge_same]

/-- Witness for the amended C4 at `stC4`: deleting absent pair
`("bob","alice")` fails with `NotFriends`; deleting the existing (already
soft-deleted) pair `("alice","bob")` succeeds and leaves `deleted=true`. -/
theorem delete_friend_requires_row_witness :
    delete_friend stC4 "bob" "alice" = (stC4, DeleteOutcome.notFriends) ∧
    ((delete_friend stC4 "alice" "bob").2 = DeleteOutcome.ok ∧
      (edgeLookup (delete_friend stC4 "alice" "bob").1.edges "alice" "bob").map
        (·.deleted) = some true) :=
  ⟨(delete_friend_requires_row stC4 "bob" "alice").1 (by decide),
   (delete_friend_requires_row stC4 "alice" "bob").2
     { Edge.default with deleted := true } (by decide)⟩

/-! ## Claim C5 -/

/-- Concrete database for C5: the edge `("alice","bob")` exists with a null
`name` (as `add_friend` creates it), and `carol` is a user with no edge
from `alice`. -/
def stC5 : State :=
  { users := [⟨"alice", "Alice", "Ada"⟩, ⟨"bob", "Bob", "Byte"⟩,
              ⟨"carol", "Carol", "Chip"⟩],
    edges := [(("alice", "bob"), Edge.default)],
    tokens := [] }

/-- C5 fails on the code: with the edge `("alice","bob")` present but its
`name` null, `get_friend_name` returns the stored null name — it does NOT
fall back to `bob`'s own display name "Bob Byte". -/
theorem get_friend_name_null_name_counterexample :
    (edgeLookup stC5.edges "alice" "bob").map (·.name) = some none ∧
    get_friend_name stC5 "alice" "bob" = GetNameResult.ok none ∧
    get_friend_name stC5 "alice" "bob" ≠
      GetNameResult.ok (some "Bob Byte") := by
  decide

/-- C5 (amended): for an existing user `F`, `getFriendDisplayName(O,F)`
returns the edge's stored `name` — even when that name is null — whenever
the edge row `(O,F)` exists, and falls back to `F`'s own display name
(first + " " + last) only when the row is absent. -/
theorem get_friend_name_edge_or_fallback (st : State) (O F : String)
    (u : User) (hu : findUser st F = some u) :
    (∀ e, edgeLookup st.edges O F = some e →
      get_friend_name st O F = GetNameResult.ok e.name) ∧
    (edgeLookup st.edges O F = none →
      get_friend_name st O F =
        GetNameResult.ok (some (u.first_name ++ " " ++ u.last_name))) := by
  constructor
  · intro e he
    simp [get_friend_name, hu, he]
  · intro h
    simp [get_friend_name, hu, h]

/-- Witness for the amended C5 at `stC5`: the existing null-named edge
yields a null name, and the absent edge toward `carol` yields her display
name. -/
theorem get_friend_name_edge_or_fallback_witness :
    get_friend_name stC5 "alice" "bob" = GetNameResult.ok none ∧
    get_friend_name stC5 "alice" "carol" =
      GetNameResult.ok (some ("Carol" ++ " " ++ "Chip")) :=
  ⟨(get_friend_name_edge_or_fallback stC5 "alice" "bob"
      ⟨"bob", "Bob", "Byte"⟩ (by decide)).1 Edge.default (by decide),
   (get_friend_name_edge_or_fallback stC5 "alice" "carol"
      ⟨"carol", "Carol", "Chip"⟩ (by decide)).2 (by decide)⟩

/-! ## Claim C7 -/

/-- Concrete database for C7: `bob` has `alice` as a live friend, but
neither an edge `("alice","bob")` nor any other edge owned by `alice`
exists; `bob` has a registered device. -/
def stC7 : State :=
  { users := [⟨"alice", "Alice", "Ada"⟩, ⟨"bob", "Bob", "Byte"⟩],
    edges := [(("bob", "alice"), Edge.default)],
    tokens := [("bob", "t1")] }

/-- C7 holds for `renameFriend` but fails for `sendAlert`: at `stC7`,
renaming creates the missing `("alice","bob")` edge soft-deleted and
carrying the given name, but a send from `alice` to `bob`, which reaches
step 4 (edge `("bob","alice")` is live), does NOT create the missing
`("alice","bob")` edge: Django's `get_or_create`, called with
`owner__username`/`friend__username` lookups, drops those from the create
parameters and the INSERT dies with an uncaught `IntegrityError` (500) —
while the `received` increment on `("bob","alice")` survives. -/
theorem implicit_edge_creation_at_failing_input :
    edgeLookup (edit_friend_name stC7 "alice" "bob" "Bobby").1.edges
        "alice" "bob" =
      some { Edge.default with name := some "Bobby", deleted := true } ∧
    (send_alert stC7 "alice" "bob" "hi" "A1" (fun _ => true)).2.1 =
        SendOutcome.integrityError ∧
    edgeLookup (send_alert stC7 "alice" "bob" "hi" "A1" (fun _ => true)).1.edges
        "alice" "bob" = none ∧
    received? (send_alert stC7 "alice" "bob" "hi" "A1" (fun _ => true)).1
        "bob" "alice" = some 1 := by
  decide

/-! ## Claim C8 -/

/-- C8: whenever `sendAlert` reaches the fan-out over a non-empty token set
(live edge `(R,S)`, reverse row present, recipient tokens non-empty), one
message is submitted per recipient token — a per-token `InvalidToken`
failure never aborts the remaining deliveries — and the call returns
`ok alertId` iff at least one token delivery succeeded, failing with
`DeliveryFailed` exactly when every delivery failed. -/
theorem send_alert_fanout_tolerates_partial_failure (st : State)
    (S R msg aid : String) (deliver : String → Bool)
    (hliv : liveEdge st R S ≠ none)
    (hrev : edgeLookup st.edges S R ≠ none)
    (htok : tokensOf st R ≠ []) :
    ((send_alert st S R msg aid deliver).2.2).map (·.token) = tokensOf st R ∧
    ((send_alert st S R msg aid deliver).2.1 = SendOutcome.ok aid ↔
      (tokensOf st R).any deliver = true) ∧
    ((send_alert st S R msg aid deliver).2.1 = SendOutcome.deliveryFailed ↔
      (tokensOf st R).any deliver = false) := by
  obtain ⟨e, he⟩ := Option.ne_none_iff_exists'.mp hliv
  obtain ⟨e2, he2⟩ := Option.ne_none_iff_exists'.mp hrev
  have he2' : ∃ e3, edgeLookup
      (updateEdge st.edges R S (fun e => { e with received := e.received + 1 }))
      S R = some e3 := by
    rw [edgeLookup_updateEdge]
    by_cases h : (R, S) = (S, R) <;> simp [h, he2]
  obtain ⟨e3, he3⟩ := he2'
  have htok2 : ∀ (es : List ((String × String) × Edge)) (u : String),
      tokensOf { st with edges := es } u = tokensOf st u :=
    fun _ _ => rfl
  have hmap : ∀ l : List String,
      (l.map (mkAlertMessage aid R S msg)).map (·.token) = l := by
    intro l
    rw [List.map_map]
    have hmk : ((fun x : FcmMessage => x.token) ∘ mkAlertMessage aid R S msg) =
        id := by
      funext t
      rfl
    rw [hmk, List.map_id]
  simp only [send_alert, he, he3, htok2]
  rw [if_neg (by simpa using htok)]
  by_cases hd : (tokensOf st R).any deliver = true
  · rw [if_pos hd]
    refine ⟨?_, by simp [hd], by simp [hd]⟩
    exact hmap _
  · rw [if_neg hd]
    refine ⟨?_, by simp [hd], by simpa using hd⟩
    exact hmap _

/-- Concrete database for the C8 witness: `bob` has `alice` live, the
reverse row exists, and `bob` has two devices `t1` (invalid at the
messenger) and `t2` (valid). -/
def stC8 : State :=
  { users := [⟨"alice", "Alice", "Ada"⟩, ⟨"bob", "Bob", "Byte"⟩],
    edges := [(("bob", "alice"), Edge.default),
              (("alice", "bob"), Edge.default)],
    tokens := [("bob", "t1"), ("bob", "t2")] }

/-- Witness for C8 at `stC8` with a messenger that rejects `t1` and accepts
`t2`: both tokens still get a message and the call succeeds. -/
theorem send_alert_fanout_tolerates_partial_failure_witness :
    ((send_alert stC8 "alice" "bob" "hi" "A1" (fun t => t == "t2")).2.2).map
        (·.token) = tokensOf stC8 "bob" ∧
    (send_alert stC8 "alice" "bob" "hi" "A1" (fun t => t == "t2")).2.1 =
      SendOutcome.ok "A1" :=
  ⟨(send_alert_fanout_tolerates_partial_failure stC8 "alice" "bob" "hi" "A1"
      (fun t => t == "t2") (by decide) (by decide) (by decide)).1,
   (send_alert_fanout_tolerates_partial_failure stC8 "alice" "bob" "hi" "A1"
      (fun t => t == "t2") (by decide) (by decide) (by decide)).2.1.mpr
     (by decide)⟩

/-! ## Claim C9 -/

/-- C9: with an existing edge `(O,F)` and an existing user `F`,
`removeFriend(O,F)` followed immediately by `addFriend(O,F)` leaves the
edge live with `name`, `sent`, `received`, `last_sent_alert_id` and
`last_sent_message_read` exactly as before the removal — restore, not
recreate. -/
theorem remove_then_add_restores (st : State) (O F : String) (e : Edge)
    (he : edgeLookup st.edges O F = some e)
    (u : User) (hu : findUser st F = some u) :
    edgeLookup (add_friend (delete_friend st O F).1 O F).1.edges O F =
      some { e with deleted := false } := by
  have hdel : (delete_friend st O F).1 =
      { st with edges :=
          updateEdge st.edges O F (fun x => { x with deleted := true }) } := by
    simp [delete_friend, he]
  rw [hdel]
  have hu' : findUser
      { st with edges :=
          updateEdge st.edges O F (fun x => { x with deleted := true }) } F =
      some u := hu
  have he' : edgeLookup
      (updateEdge st.edges O F (fun x => { x with deleted := true })) O F =
      some { e with deleted := true } := by
    rw [edgeLookup_updateEdge_same, he]; rfl
  simp [add_friend, hu', he', edgeLookup_updateEdge_same]

/-- Concrete database for the C9 witness: the edge `("alice","bob")` holds
a custom name and non-trivial counters and alert state. -/
def stC9 : State :=
  { users := [⟨"alice", "Alice", "Ada"⟩, ⟨"bob", "Bob", "Byte"⟩],
    edges := [(("alice", "bob"),
      { name := some "Bobby", deleted := false, sent := 3, received := 5,
        last_sent_alert_id := some "A9", last_sent_message_read := true })],
    tokens := [] }

/-- Witness for C9 at `stC9`: after remove-then-add the edge is live again
with name, counters and alert state untouched. -/
theorem remove_then_add_restores_witness :
    edgeLookup (add_friend (delete_friend stC9 "alice" "bob").1 "alice"
        "bob").1.edges "alice" "bob" =
      some { name := some "Bobby", deleted := false, sent := 3, received := 5,
             last_sent_alert_id := some "A9", last_sent_message_read := true } :=
  remove_then_add_restores stC9 "alice" "bob"
    { name := some "Bobby", deleted := false, sent := 3, received := 5,
      last_sent_alert_id := some "A9", last_sent_message_read := true }
    (by decide) ⟨"bob", "Bob", "Byte"⟩ (by decide)

/-! ## Claim C10 -/

/-- C10: `acknowledgeRead` marks every edge whose owner is the original
sender and whose `last_sent_alert_id` matches the acknowledged alert id as
read, and this marking is in the final state for EVERY messenger behaviour
and outcome — in particular it persists when the call then fails with
`NoRecipientDevices` or `DeliveryFailed`, since the marking is written
(and committed row by row) before the notify-set is even computed. -/
theorem alert_read_marks_edges_despite_failure (st : State)
    (acker fromU alertId ackToken now : String) (deliver : String → Bool)
    (o f : String) (e : Edge)
    (he : edgeLookup st.edges o f = some e)
    (ho : o = fromU) (haid : e.last_sent_alert_id = some alertId) :
    lastRead? (alert_read st acker fromU alertId ackToken now deliver).1 o f =
      some true := by
  have hst : (alert_read st acker fromU alertId ackToken now deliver).1 =
      { st with edges := markRead st.edges fromU alertId } := by
    simp only [alert_read]
    split
    · rfl
    · split <;> rfl
  subst ho
  rw [hst]
  simp [lastRead?, edgeLookup_markRead, he, haid]

/-- Concrete database for the C10 witness: the edge `("alice","bob")`
carries unread alert `A1`, and nobody has any device token, so the
acknowledgement fails with `NoRecipientDevices`. -/
def stC10 : State :=
  { users := [⟨"alice", "Alice", "Ada"⟩, ⟨"bob", "Bob", "Byte"⟩],
    edges := [(("alice", "bob"),
      { Edge.default with sent := 1, last_sent_alert_id := some "A1" })],
    tokens := [] }

/-- Witness for C10 at `stC10`: the acknowledgement fails with
`NoRecipientDevices`, yet the matching edge is left marked read. -/
theorem alert_read_marks_edges_despite_failure_witness :
    (alert_read stC10 "bob" "alice" "A1" "t1" "99.9" (fun _ => false)).2.1 =
        ReadOutcome.noRecipientDevices ∧
    lastRead? (alert_read stC10 "bob" "alice" "A1" "t1" "99.9"
        (fun _ => false)).1 "alice" "bob" = some true :=
  ⟨by decide,
   alert_read_marks_edges_despite_failure stC10 "bob" "alice" "A1" "t1"
     "99.9" (fun _ => false) "alice" "bob"
     { Edge.default with sent := 1, last_sent_alert_id := some "A1" }
     (by decide) rfl (by decide)⟩

end AttentionApi
